import Mathlib

/-!
Shallow embedding of the lmfao client library (src/lmao/lm/clients/base.py and
src/lmao/lm/clients/anthropic.py): the chat-history buffer, the message format
checker, the prompt serializer, the header construction and response
normalization of the HTTP transport, and client construction. Exceptions of
the Python code are modelled with Except; raising leaves mutable state
unchanged, which the state-passing definitions make explicit.
-/

namespace Lmao

/-- Python-style values that can occur in chat message payloads. -/
inductive PyVal where
  | vNone : PyVal
  | vStr : String → PyVal
  | vInt : Int → PyVal
  | vDict : List (String × PyVal) → PyVal

/-- Whether an Except value is a normal return (true) or a raised exception (false). -/
def exceptOk {ε α : Type} : Except ε α → Bool
  | Except.ok _ => true
  | Except.error _ => false

/-- Python dict key membership test, as used by writing the key in front of in. -/
def hasKey (k : String) (entries : List (String × PyVal)) : Bool :=
  entries.any fun p => p.1 == k

/-- Whether a PyVal is a dict (isinstance(message, dict)). -/
def isDictVal : PyVal → Bool
  | PyVal.vDict _ => true
  | _ => false

/-- AnthropicChatHistory.check_message_format (anthropic.py lines 17-25):
raises unless the message is a dict holding both a role key and a content key;
returns the message unchanged otherwise. Only key presence is tested. -/
def check_message_format (message : PyVal) : Except String PyVal :=
  match message with
  | PyVal.vDict entries =>
    if hasKey "role" entries then
      if hasKey "content" entries then Except.ok message
      else Except.error "Message must have a content key."
    else Except.error "Message must have a role key."
  | _ => Except.error "Message must be a dict."

/-- The dict built by append: role and content entries from two strings. -/
def mkMessage (role content : String) : PyVal :=
  PyVal.vDict [("role", PyVal.vStr role), ("content", PyVal.vStr content)]

/-- The list comprehension in the messages setter (base.py line 76): run
check_message_format on each element left to right; the first raised
exception aborts the whole comprehension before any assignment happens. -/
def checkAll : List PyVal → Except String (List PyVal)
  | [] => Except.ok []
  | m :: ms =>
    match check_message_format m with
    | Except.error e => Except.error e
    | Except.ok v =>
      match checkAll ms with
      | Except.error e => Except.error e
      | Except.ok vs => Except.ok (v :: vs)

/-- State of a ChatHistory object. The field bounded records whether _messages
still is the deque(maxlen=max_length) installed by the constructor (base.py
line 48); the messages setter (line 76) rebinds _messages to a plain list,
after which no maxlen applies. -/
structure ChatHistoryState where
  max_length : Nat
  bounded : Bool
  msgs : List PyVal

/-- ChatHistory(max_length): fresh empty deque-backed history. -/
def emptyChatHistory (max_length : Nat) : ChatHistoryState :=
  ⟨max_length, true, []⟩

/-- deque(maxlen=m).append: keep the last m elements, evicting from the left. -/
def dequeAppend (max_length : Nat) (msgs : List PyVal) (m : PyVal) : List PyVal :=
  let l := msgs ++ [m]
  l.drop (l.length - max_length)

def human_role : String := "human"

def assistant_role : String := "assistant"

/-- append(role, content) (base.py line 64 and anthropic.py line 14): validate
the freshly built dict, then push it on _messages. A deque-backed buffer
evicts the oldest entry at capacity; a list-backed buffer grows without bound.
The dict built here always has both keys, so the check never raises. -/
def appendMessage (st : ChatHistoryState) (role content : String) : ChatHistoryState :=
  match check_message_format (mkMessage role content) with
  | Except.error _ => st
  | Except.ok m =>
    if st.bounded then ⟨st.max_length, st.bounded, dequeAppend st.max_length st.msgs m⟩
    else ⟨st.max_length, st.bounded, st.msgs ++ [m]⟩

/-- The messages setter (base.py lines 74-76): evaluate the checking
comprehension fully, then rebind _messages to the resulting plain list. On a
raised exception the prior buffer is untouched; the Option String component
carries the raised error, if any. -/
def setMessages (st : ChatHistoryState) (ms : List PyVal) : ChatHistoryState × Option String :=
  match checkAll ms with
  | Except.error e => (st, some e)
  | Except.ok checked => (⟨st.max_length, false, checked⟩, none)

/-- clear() (base.py line 68). -/
def clearMessages (st : ChatHistoryState) : ChatHistoryState :=
  ⟨st.max_length, st.bounded, []⟩

/-- The public mutating operations of ChatHistory. -/
inductive ChatOp where
  | append : String → String → ChatOp
  | add_human_message : String → ChatOp
  | add_assistant_message : String → ChatOp
  | clear : ChatOp
  | set_messages : List PyVal → ChatOp

def stepChatOp (st : ChatHistoryState) (op : ChatOp) : ChatHistoryState :=
  match op with
  | ChatOp.append r c => appendMessage st r c
  | ChatOp.add_human_message c => appendMessage st human_role c
  | ChatOp.add_assistant_message c => appendMessage st assistant_role c
  | ChatOp.clear => clearMessages st
  | ChatOp.set_messages ms => (setMessages st ms).1

def runChatOps (st : ChatHistoryState) (ops : List ChatOp) : ChatHistoryState :=
  ops.foldl stepChatOp st

/-- Python str.title() restricted to ASCII, as applied to role tags: a letter
that follows a non-letter is uppercased, a letter that follows a letter is
lowercased. -/
def pyTitleAux : Bool → List Char → List Char
  | _, [] => []
  | prevAlpha, c :: cs =>
    (if prevAlpha then c.toLower else c.toUpper) :: pyTitleAux c.isAlpha cs

def pyTitle (s : String) : String :=
  String.mk (pyTitleAux false s.data)

/-- Subscript a message dict and use the result as a string, as the f-string
in to_prompt does. The model covers string valued role and content fields,
the shape produced by append(role: str, content: str): a missing key raises
and a non-string value raises. -/
def getStrItem (k : String) (m : PyVal) : Except String String :=
  match m with
  | PyVal.vDict entries =>
    match List.lookup k entries with
    | some (PyVal.vStr s) => Except.ok s
    | some _ => Except.error "AttributeError"
    | none => Except.error "KeyError"
  | _ => Except.error "TypeError"

/-- One element of the comprehension in to_prompt (anthropic.py line 28):
the role, title-cased, a colon and a space, then the content. -/
def formatMessage (m : PyVal) : Except String String :=
  match getStrItem "role" m with
  | Except.error e => Except.error e
  | Except.ok role =>
    match getStrItem "content" m with
    | Except.error e => Except.error e
    | Except.ok content => Except.ok (pyTitle role ++ ": " ++ content)

/-- The whole comprehension in to_prompt, left to right, first raise wins. -/
def formatAll : List PyVal → Except String (List String)
  | [] => Except.ok []
  | m :: ms =>
    match formatMessage m with
    | Except.error e => Except.error e
    | Except.ok s =>
      match formatAll ms with
      | Except.error e => Except.error e
      | Except.ok rest => Except.ok (s :: rest)

/-- AnthropicChatHistory.to_prompt (anthropic.py lines 27-31): join the
formatted messages with a blank line and optionally add the assistant cue. -/
def to_prompt (msgs : List PyVal) (end_with_assistant_prompt : Bool) : Except String String :=
  match formatAll msgs with
  | Except.error e => Except.error e
  | Except.ok parts =>
    let chat := String.intercalate "\n\n" parts
    Except.ok (if end_with_assistant_prompt then chat ++ "\n\nAssistant:" else chat)

/-- AnthropicChatHistory.to_request_format (anthropic.py lines 33-34). -/
def to_request_format (msgs : List PyVal) : Except String String :=
  to_prompt msgs true

/-- base.py line 22. -/
def SUCCESS_STATUS_CODE : Nat := 200

/-- One header specification of API_HEADER_FORMAT_DICT (base.py lines 17-19). -/
structure APIHeader where
  key : String
  value : String → String

/-- base.py lines 23-27. -/
def API_HEADER_FORMAT_DICT : List (String × APIHeader) :=
  [("x-api-key", ⟨"X-API-Key", fun api_key => api_key⟩),
   ("basic authentication", ⟨"Authorization", fun api_key => "Basic " ++ api_key⟩),
   ("bearer authentication", ⟨"Authorization", fun api_key => "Bearer " ++ api_key⟩)]

/-- Python dict assignment d[k] = v: replace the value in place when the key
exists, extend on the right otherwise. -/
def dictSet (d : List (String × String)) (k v : String) : List (String × String) :=
  if d.any fun p => p.1 == k then
    d.map fun p => if p.1 == k then (k, v) else p
  else d ++ [(k, v)]

/-- Python dict.update: assign every entry of the right dict in order. -/
def dictUpdate (d extra : List (String × String)) : List (String × String) :=
  extra.foldl (fun acc p => dictSet acc p.1 p.2) d

/-- Python dict.values(). -/
def dictValues (d : List (String × String)) : List String :=
  d.map Prod.snd

/-- Header construction of BaseClient._post_request (base.py lines 125-132):
the two fixed headers plus the resolved auth header, updated with the caller
supplied extra headers; then, when the raw api key is not among the header
values, Authorization is overwritten with the Bearer form of the key. -/
def buildHeaders (api_header : APIHeader) (api_key : String)
    (extra_headers : List (String × String)) : List (String × String) :=
  let headers := dictUpdate
    (dictSet (dictSet (dictSet [] "accept" "application/json")
      "content-type" "application/json") api_header.key (api_header.value api_key))
    extra_headers
  if (dictValues headers).contains api_key then headers
  else dictSet headers "Authorization" ("Bearer " ++ api_key)

/-- Modelled from the claim C5 wording: accept and content-type headers plus
exactly the auth header the registry gives for the scheme, merged with the
caller supplied extra headers, caller wins on collision. Used only for
comparison with buildHeaders. -/
def claimedHeaders (api_header : APIHeader) (api_key : String)
    (extra_headers : List (String × String)) : List (String × String) :=
  dictUpdate
    (dictSet (dictSet (dictSet [] "accept" "application/json")
      "content-type" "application/json") api_header.key (api_header.value api_key))
    extra_headers

/-- An HTTP response as seen by _post_request: a status code and the decoded
body, with none standing for a body that fails JSON decoding. -/
structure HttpResponse where
  status : Nat
  body : Option (List (String × PyVal))

/-- base.py lines 135-141: pass a decodable body through with its status; on
a decode failure return the empty dict and force the status to 500 unless the
raw status already equals SUCCESS_STATUS_CODE. -/
def normalizeResponse (r : HttpResponse) : Nat × List (String × PyVal) :=
  match r.body with
  | some d => (r.status, d)
  | none => (if r.status ≠ SUCCESS_STATUS_CODE then 500 else r.status, [])

/-- Observable behaviour of one _post_request call against an endpoint:
how many HTTP attempts are made, the waits slept between attempts (seconds),
and the returned (status, body) pair. -/
structure PostTrace where
  attempts : Nat
  waits : List ℚ
  result : Nat × List (String × PyVal)

/-- BaseClient._post_request (base.py lines 116-141). The with-block on lines
117-132 builds a Session, mounts HTTPAdapter(max_retries=Retry(...)) on it and
closes it again; the actual request on line 134 goes through the module level
requests.post, which uses a fresh session with default adapters. So exactly
one attempt is made against the endpoint, nothing sleeps, and the sole
response is normalized and returned whatever its status is. -/
def postRequestTrace (endpoint : Nat → HttpResponse) : PostTrace :=
  ⟨1, [], normalizeResponse (endpoint 0)⟩

/-- ClientResponse (base.py lines 30-34). -/
structure ClientResponse where
  text : Option PyVal
  raw_response : List (String × PyVal)
  status_code : Nat

/-- AnthropicClient.complete (anthropic.py lines 47-56), as a function of the
(status, body) pair the transport returned: on the success status the
completion entry of the body is subscripted unconditionally (a missing key
raises KeyError); on every other status the text is None and nothing raises. -/
def complete (status_code : Nat) (response : List (String × PyVal)) :
    Except String ClientResponse :=
  if status_code = SUCCESS_STATUS_CODE then
    match List.lookup "completion" response with
    | some v => Except.ok ⟨some v, response, status_code⟩
    | none => Except.error "KeyError: completion"
  else
    Except.ok ⟨none, response, status_code⟩

/-- Construction-time configuration: the explicit api key argument, the value
of the environment variable named api_env_name (none when unset), and the
base_url and api_header_format class attributes (sentinel value none as the
string used by the source). -/
structure ClientConfig where
  api_key : Option String
  env_value : Option String
  base_url : String
  api_header_format : String

/-- A successfully constructed client. -/
structure Client where
  api_key : String
  max_retries : Nat
  api_header : APIHeader

/-- Python a or b on optional strings: the empty string and None are falsy. -/
def pyOr (a b : Option String) : Option String :=
  match a with
  | none => b
  | some s => if s = "" then b else some s

/-- Python truthiness of an optional string. -/
def pyTruthy : Option String → Bool
  | none => false
  | some s => if s = "" then false else true

/-- BaseClient.__init__ (base.py lines 105-114): resolve the key with
api_key or environment, raise when it is None, raise when base_url is the
sentinel, raise when the header format is not in the registry. -/
def initClient (cfg : ClientConfig) (max_retries : Nat) : Except String Client :=
  match pyOr cfg.api_key cfg.env_value with
  | none => Except.error "You must provide an API key or set api_env_name to initialize an LM Client."
  | some key =>
    if cfg.base_url = "none" then
      Except.error "Client subclasses must define a base URL attribute."
    else
      match List.lookup cfg.api_header_format API_HEADER_FORMAT_DICT with
      | some h => Except.ok ⟨key, max_retries, h⟩
      | none => Except.error "Client subclasses must have api_header_format in the registry."

/-- Modelled from the claim C9 wording: construction succeeds iff an API key
is resolvable (explicit key non-null or environment variable set), the base
URL is set, and the auth scheme is recognized. Used only for comparison with
initClient. -/
def claimedInitSucceeds (cfg : ClientConfig) : Bool :=
  (cfg.api_key.isSome || cfg.env_value.isSome) &&
    (cfg.base_url != "none") &&
    (List.lookup cfg.api_header_format API_HEADER_FORMAT_DICT).isSome

/-- Helper: a list holding an element the checker rejects makes the whole
checking comprehension raise. -/
theorem checkAll_error_of_mem (ms : List PyVal)
    (h : ∃ m ∈ ms, exceptOk (check_message_format m) = false) :
    ∃ e, checkAll ms = Except.error e := by
  induction ms with
  | nil => simp at h
  | cons m ms ih =>
    rcases h with ⟨x, hx, hfail⟩
    rcases List.mem_cons.mp hx with hxm | hxs
    · subst hxm
      cases hc : check_message_format x with
      | error e => exact ⟨e, by simp [checkAll, hc]⟩
      | ok v => rw [hc] at hfail; simp [exceptOk] at hfail
    · cases hc : check_message_format m with
      | error e2 => exact ⟨e2, by simp [checkAll, hc]⟩
      | ok v =>
        rcases ih ⟨x, hxs, hfail⟩ with ⟨e, he⟩
        exact ⟨e, by simp [checkAll, hc, he]⟩

/-- Claim C1 (failing evaluation): against an endpoint that answers HTTP 429
with a decodable empty body on every attempt, _post_request performs exactly
one attempt, sleeps no backoff waits, and returns the pair (429, empty dict).
The claimed five attempts with waits 0.1, 0.2, 0.4, 0.8, 1.6 seconds never
happen because the retry-configured session is discarded unused. -/
theorem post_request_single_attempt :
    (postRequestTrace (fun _ => ⟨429, some []⟩)).attempts = 1 ∧
    (postRequestTrace (fun _ => ⟨429, some []⟩)).waits = [] ∧
    (postRequestTrace (fun _ => ⟨429, some []⟩)).result = (429, []) :=
  ⟨rfl, rfl, rfl⟩

/-- Claim C2 (failing evaluation): on a history with max_length 2, assigning
three valid messages through the messages setter leaves a buffer of length 3,
and a subsequent append grows it to length 4 with no eviction, because the
setter rebinds the deque to a plain list. Append-only sequences do respect
the bound: three appends leave the last two messages (FIFO eviction). -/
theorem chat_history_bound_violated :
    (runChatOps (emptyChatHistory 2)
      [ChatOp.set_messages
        [mkMessage "human" "a", mkMessage "assistant" "b", mkMessage "human" "c"]]).msgs.length
      = 3 ∧
    (runChatOps (emptyChatHistory 2)
      [ChatOp.set_messages
        [mkMessage "human" "a", mkMessage "assistant" "b", mkMessage "human" "c"],
       ChatOp.append "human" "d"]).msgs.length = 4 ∧
    (runChatOps (emptyChatHistory 2)
      [ChatOp.append "human" "a", ChatOp.append "assistant" "b",
       ChatOp.append "human" "c"]).msgs
      = [mkMessage "assistant" "b", mkMessage "human" "c"] :=
  ⟨rfl, rfl, rfl⟩

/-- Claim C3: a response whose body fails decoding yields the empty body map,
with the status forced to 500 whenever the raw status differs from the
success code 200 and passed through unchanged when it is exactly 200; in
particular 503 yields (500, empty) and 200 yields (200, empty). A decodable
body is passed through with its raw status. -/
theorem normalize_undecodable_body :
    (∀ s : Nat, normalizeResponse ⟨s, none⟩ =
      (if s = SUCCESS_STATUS_CODE then s else 500, [])) ∧
    normalizeResponse ⟨503, none⟩ = (500, []) ∧
    normalizeResponse ⟨200, none⟩ = (200, []) ∧
    (∀ (s : Nat) (b : List (String × PyVal)), normalizeResponse ⟨s, some b⟩ = (s, b)) := by
  refine ⟨fun s => ?_, rfl, rfl, fun s b => rfl⟩
  by_cases h : s = SUCCESS_STATUS_CODE
  · simp [normalizeResponse, h]
  · simp [normalizeResponse, h]

/-- Claim C6: the messages setter is atomic. Whenever any element of the
replacement list fails check_message_format, the assignment raises and the
prior buffer state is left completely unchanged. -/
theorem messages_setter_atomic (st : ChatHistoryState) (ms : List PyVal)
    (h : ∃ m ∈ ms, exceptOk (check_message_format m) = false) :
    (setMessages st ms).1 = st ∧ (setMessages st ms).2.isSome = true := by
  rcases checkAll_error_of_mem ms h with ⟨e, he⟩
  constructor <;> simp [setMessages, he]

/-- Witness for claim C6: assigning a valid message followed by an invalid
one (the integer 3) to a history holding one message raises and leaves the
prior contents untouched. -/
theorem messages_setter_atomic_witness :
    (setMessages ⟨10, true, [mkMessage "human" "hi"]⟩
      [mkMessage "human" "ok", PyVal.vInt 3]).1 = ⟨10, true, [mkMessage "human" "hi"]⟩ ∧
    (setMessages ⟨10, true, [mkMessage "human" "hi"]⟩
      [mkMessage "human" "ok", PyVal.vInt 3]).2.isSome = true :=
  messages_setter_atomic ⟨10, true, [mkMessage "human" "hi"]⟩
    [mkMessage "human" "ok", PyVal.vInt 3]
    ⟨PyVal.vInt 3, by simp, rfl⟩

/-- Claim C10: when the transport hands complete the success status 200 with
a body map lacking the completion key, complete raises a KeyError instead of
returning a ClientResponse; the normalized form of a 200 response with an
undecodable body is exactly such a pair. -/
theorem complete_keyerror_on_missing_completion :
    (∀ body : List (String × PyVal), List.lookup "completion" body = none →
      complete SUCCESS_STATUS_CODE body = Except.error "KeyError: completion") ∧
    complete (normalizeResponse ⟨200, none⟩).1 (normalizeResponse ⟨200, none⟩).2 =
      Except.error "KeyError: completion" := by
  constructor
  · intro body hb
    simp [complete, hb]
  · rfl

/-- Witness for claim C10: the empty body map at status 200 makes complete
raise the KeyError. -/
theorem complete_keyerror_witness :
    complete SUCCESS_STATUS_CODE [] = Except.error "KeyError: completion" :=
  complete_keyerror_on_missing_completion.1 [] rfl

/-- Claim C4, counterexample: at the transport-reachable pair of status 200
with the empty body map, complete raises a KeyError rather than returning any
ClientResponse, so the claim quantified over every transport pair fails. -/
theorem complete_raises_inside_claimed_domain :
    exceptOk (complete 200 []) = false ∧
    complete 200 [] = Except.error "KeyError: completion" :=
  ⟨rfl, rfl⟩

/-- Claim C4 as amended: for every non-success status, complete returns a
ClientResponse with null text, the body as raw_response and the status
unchanged, raising no exception; for status 200 with the completion field
present, complete returns its value as the text. -/
theorem complete_spec :
    (∀ (s : Nat) (b : List (String × PyVal)), s ≠ SUCCESS_STATUS_CODE →
      complete s b = Except.ok ⟨none, b, s⟩) ∧
    (∀ (b : List (String × PyVal)) (v : PyVal), List.lookup "completion" b = some v →
      complete SUCCESS_STATUS_CODE b = Except.ok ⟨some v, b, SUCCESS_STATUS_CODE⟩) := by
  constructor
  · intro s b hs
    simp [complete, hs]
  · intro b v hv
    simp [complete, hv]

/-- Witness for the amended claim C4: a 404 with empty body returns normally
with null text, and a 200 whose body holds a completion entry returns it. -/
theorem complete_spec_witness :
    complete 404 [] = Except.ok ⟨none, [], 404⟩ ∧
    complete 200 [("completion", PyVal.vStr "hi")] =
      Except.ok ⟨some (PyVal.vStr "hi"), [("completion", PyVal.vStr "hi")], 200⟩ :=
  ⟨complete_spec.1 404 [] (by decide),
   complete_spec.2 [("completion", PyVal.vStr "hi")] (PyVal.vStr "hi") rfl⟩

/-- Claim C5, counterexample: for the scheme basic authentication with key k
and no extra headers, the Authorization header actually sent is Bearer k,
while the claimed merge of the registry header would send Basic k. -/
theorem basic_auth_header_overwritten :
    (List.lookup "basic authentication" API_HEADER_FORMAT_DICT).map
      (fun h => (List.lookup "Authorization" (buildHeaders h "k" []),
                 List.lookup "Authorization" (claimedHeaders h "k" []))) =
      some (some "Bearer k", some "Basic k") :=
  rfl

/-- Claim C5 as amended: the headers are the claimed merge (fixed headers,
registry auth header, caller supplied extras with caller precedence), except
that a final fallback overwrites Authorization with the Bearer form of the
raw key whenever the raw key does not occur among the merged header values.
For the x-api-key scheme the raw key is itself a header value, so with no
colliding extras the claimed merge is exactly what is sent, including the
X-API-Key k1 header of the end-to-end scenario. -/
theorem buildHeaders_spec :
    (∀ (h : APIHeader) (api_key : String) (extra_headers : List (String × String)),
      buildHeaders h api_key extra_headers =
        (if (dictValues (claimedHeaders h api_key extra_headers)).contains api_key
         then claimedHeaders h api_key extra_headers
         else dictSet (claimedHeaders h api_key extra_headers)
           "Authorization" ("Bearer " ++ api_key))) ∧
    buildHeaders ⟨"X-API-Key", fun k => k⟩ "k1" [] =
      claimedHeaders ⟨"X-API-Key", fun k => k⟩ "k1" [] ∧
    List.lookup "X-API-Key" (buildHeaders ⟨"X-API-Key", fun k => k⟩ "k1" []) = some "k1" :=
  ⟨fun h api_key extra_headers => rfl, rfl, rfl⟩

/-- Claim C7, counterexample: the checker accepts a message whose role and
content values are both null, refuting the part of the claim that every
accepted message has non-null role and content. -/
theorem check_accepts_null_role :
    exceptOk (check_message_format
      (PyVal.vDict [("role", PyVal.vNone), ("content", PyVal.vNone)])) = true ∧
    List.lookup "role" [("role", PyVal.vNone), ("content", PyVal.vNone)] =
      some PyVal.vNone :=
  ⟨rfl, rfl⟩

/-- Claim C7 as amended: check_message_format accepts a dict exactly when it
holds both a role key and a content key, whatever the values are (null
included); every non-dict is rejected, as are the three concrete shapes of
the claim, and every dict with both keys is accepted. -/
theorem check_message_format_spec :
    (∀ entries : List (String × PyVal),
      exceptOk (check_message_format (PyVal.vDict entries)) =
        (hasKey "role" entries && hasKey "content" entries)) ∧
    (∀ m : PyVal, isDictVal m = false → exceptOk (check_message_format m) = false) ∧
    exceptOk (check_message_format (PyVal.vDict [])) = false ∧
    exceptOk (check_message_format (PyVal.vDict [("role", PyVal.vStr "x")])) = false ∧
    exceptOk (check_message_format (PyVal.vDict [("content", PyVal.vStr "y")])) = false ∧
    exceptOk (check_message_format (PyVal.vStr "not a dict")) = false ∧
    (∀ r c : PyVal,
      exceptOk (check_message_format (PyVal.vDict [("role", r), ("content", c)])) = true) := by
  refine ⟨fun entries => ?_, fun m hm => ?_, rfl, rfl, rfl, rfl, fun r c => rfl⟩
  · cases h1 : hasKey "role" entries <;> cases h2 : hasKey "content" entries <;>
      simp [check_message_format, exceptOk, h1, h2]
  · cases m <;> simp_all [isDictVal, check_message_format, exceptOk]

/-- Witness for the amended claim C7: a plain string is not a dict and is
rejected by the checker. -/
theorem check_message_format_spec_witness :
    isDictVal (PyVal.vStr "z") = false ∧
    exceptOk (check_message_format (PyVal.vStr "z")) = false :=
  ⟨rfl, check_message_format_spec.2.1 (PyVal.vStr "z") rfl⟩

/-- Helper: formatting the message built by append from a role and content
string always succeeds and yields the title-cased role, a colon and a space,
and the content. -/
theorem formatMessage_mk (r c : String) :
    formatMessage (mkMessage r c) = Except.ok (pyTitle r ++ ": " ++ c) :=
  rfl

/-- Helper: the formatting comprehension over a buffer of appended messages
succeeds elementwise. -/
theorem formatAll_map (ps : List (String × String)) :
    formatAll (ps.map fun rc => mkMessage rc.1 rc.2) =
      Except.ok (ps.map fun rc => pyTitle rc.1 ++ ": " ++ rc.2) := by
  induction ps with
  | nil => rfl
  | cons p ps ih =>
    obtain ⟨r, c⟩ := p
    simp [formatAll, formatMessage_mk, ih]

/-- Claim C8: on a history of messages appended from role and content strings,
to_prompt returns the join of the title-cased role-content lines separated by
a blank line, with the trailing assistant cue appended exactly when
end_with_assistant_prompt is true; to_request_format is to_prompt with the
cue enabled. -/
theorem to_prompt_spec (ps : List (String × String)) (e : Bool) (hne : ps ≠ []) :
    to_prompt (ps.map fun rc => mkMessage rc.1 rc.2) e =
      Except.ok (String.intercalate "\n\n"
        (ps.map fun rc => pyTitle rc.1 ++ ": " ++ rc.2) ++
        (if e then "\n\nAssistant:" else "")) ∧
    to_request_format (ps.map fun rc => mkMessage rc.1 rc.2) =
      to_prompt (ps.map fun rc => mkMessage rc.1 rc.2) true := by
  refine ⟨?_, rfl⟩
  rw [to_prompt, formatAll_map ps]
  cases e <;> simp

/-- Witness for claim C8: the two-message history human hi, assistant hello
serializes to the transcript with both turns in order, capitalized role
labels, and the trailing assistant cue. -/
theorem to_prompt_spec_witness :
    to_prompt [mkMessage "human" "hi", mkMessage "assistant" "hello"] true =
      Except.ok "Human: hi\n\nAssistant: hello\n\nAssistant:" := by
  have h := (to_prompt_spec [("human", "hi"), ("assistant", "hello")] true (by decide)).1
  exact h

/-- Helper: resolvability of the api key under Python or-semantics. -/
theorem pyOr_isSome (a b : Option String) :
    (pyOr a b).isSome = (pyTruthy a || b.isSome) := by
  cases a with
  | none => simp [pyOr, pyTruthy]
  | some s => by_cases h : s = "" <;> simp [pyOr, pyTruthy, h]

/-- Claim C9, counterexample: with an explicit empty-string key, no
environment variable, a set base URL and the recognized scheme x-api-key, the
claim says construction succeeds (the explicit key is not null), but the code
raises, because Python or-resolution treats the empty string as falsy. -/
theorem empty_key_rejected_at_init :
    claimedInitSucceeds ⟨some "", none, "https://x.test", "x-api-key"⟩ = true ∧
    exceptOk (initClient ⟨some "", none, "https://x.test", "x-api-key"⟩ 5) = false :=
  ⟨rfl, rfl⟩

/-- Claim C9 as amended: construction succeeds exactly when an API key is
resolvable under Python truthiness (the explicit key is non-null and
non-empty, or the named environment variable is set), the base URL differs
from the unset sentinel, and the auth scheme is in the registry; it fails
with a synchronously raised error otherwise. -/
theorem initClient_status (cfg : ClientConfig) :
    exceptOk (initClient cfg 5) =
      ((pyTruthy cfg.api_key || cfg.env_value.isSome) &&
        (cfg.base_url != "none") &&
        (List.lookup cfg.api_header_format API_HEADER_FORMAT_DICT).isSome) := by
  obtain ⟨k, e, u, f⟩ := cfg
  rw [← pyOr_isSome k e]
  show exceptOk (initClient ⟨k, e, u, f⟩ 5) = _
  cases hp : pyOr k e with
  | none => simp [initClient, hp, exceptOk]
  | some key =>
    by_cases hu : u = "none"
    · simp [initClient, hp, hu, exceptOk]
    · cases hl : List.lookup f API_HEADER_FORMAT_DICT with
      | none => simp [initClient, hp, hu, hl, exceptOk]
      | some h => simp [initClient, hp, hu, hl, exceptOk]

end Lmao
